import Mathlib

/-!
Shallow embedding of the streaming chat-completion engine of
`react-native-gen-ui` (file `src/openai/chat-completion.ts`), together with
proofs about its behaviour.

The embedding models the `ChatCompletion` class: its mutable fields become the
`Session` structure, the `message` event listener `handleNewChunk` becomes a
pure function from a session and a frame payload to a new session plus the
list of callback invocations it performs, and the tool-call path
(`handleToolCall` / `streamRecursiveAfterToolCall`) becomes functions over the
same state.  External JavaScript library functions (`JSON.parse` of the frame
envelope, `JSON.parse` of the accumulated argument string, zod's
`schema.parse`, `React.isValidElement`) are modelled as parameters or as
constructor tags of the runtime-value datatypes, since they are not code of
this repository.
-/

namespace RNGenUI

/-- Model of an opaque React element (`ReactElement`).  Only identity
matters to the engine, which stores and forwards elements without inspecting
them, so a numeric key suffices. -/
structure ReactElement where
  key : Nat
  deriving DecidableEq, Repr

/-- Model of a JavaScript JSON value, as produced by `JSON.parse` of the
accumulated tool-call argument string and stored in `toolCallResult`. -/
inductive Json where
  | null : Json
  | bool (b : Bool) : Json
  | num (n : Int) : Json
  | str (s : String) : Json
  | arr (elems : List Json) : Json
  | obj (fields : List (String × Json)) : Json

/-- JSON string escaping as performed by `JSON.stringify` (the cases the
engine's data can hit: quote and backslash). -/
def escapeChar (c : Char) : String :=
  if c = '"' then "\\\""
  else if c = '\\' then "\\\\"
  else String.singleton c

/-- Escape every character of a string for JSON output. -/
def escapeString (s : String) : String :=
  String.join (s.data.map escapeChar)

mutual

/-- Model of `JSON.stringify`, used by `getMessages` to serialize
`toolCallResult` into the synthesized function-role message. -/
def Json.stringify : Json → String
  | .null => "null"
  | .bool b => if b then "true" else "false"
  | .num n => toString n
  | .str s => "\"" ++ escapeString s ++ "\""
  | .arr xs => "[" ++ stringifyElems xs ++ "]"
  | .obj fs => "\x7b" ++ stringifyFields fs ++ "\x7d"

/-- Comma-separated serialization of a JSON array body. -/
def stringifyElems : List Json → String
  | [] => ""
  | [x] => Json.stringify x
  | x :: y :: xs => Json.stringify x ++ "," ++ stringifyElems (y :: xs)

/-- Comma-separated serialization of a JSON object body. -/
def stringifyFields : List (String × Json) → String
  | [] => ""
  | [(k, v)] => "\"" ++ escapeString k ++ "\":" ++ Json.stringify v
  | (k, v) :: y :: xs =>
      "\"" ++ escapeString k ++ "\":" ++ Json.stringify v ++ "," ++
        stringifyFields (y :: xs)

end

/-- A chat message, or a React element: the payload type
`ChatCompletionMessageOrReactElement` that `getMessages` produces and the
callbacks receive. -/
inductive Msg where
  | system (content : String) : Msg
  | user (content : String) : Msg
  | assistant (content : String) : Msg
  | function (name : String) (content : String) : Msg
  | element (e : ReactElement) : Msg
  deriving DecidableEq, Repr

/-- `React.isValidElement` on a message (`isReactElement` in `utils.ts`). -/
def isReactElement : Msg → Bool
  | .element _ => true
  | _ => false

/-- `filterOutReactComponents` from `utils.ts`: keep only the plain chat
messages. -/
def filterOutReactComponents (ms : List Msg) : List Msg :=
  ms.filter (fun m => !isReactElement m)

/-- Wire model: the `function` sub-object of one entry of
`delta.tool_calls`. -/
structure ToolCallFunctionDelta where
  name : Option String
  arguments : Option String

/-- Wire model: one entry of `delta.tool_calls`. -/
structure ToolCallDelta where
  function : Option ToolCallFunctionDelta

/-- Wire model: the `delta` of a choice. -/
structure ChoiceDelta where
  content : Option String
  tool_calls : Option (List ToolCallDelta)

/-- Wire model: one element of `choices`. -/
structure Choice where
  finish_reason : Option String
  delta : ChoiceDelta

/-- Wire model: the streamed `ChatCompletionChunk` envelope. -/
structure ChatCompletionChunk where
  choices : Option (List Choice)

/-- The `newToolCall` field of `ChatCompletion`: the accumulated tool-call
name and argument fragments. -/
structure AccumulatedToolCall where
  name : String
  arguments : String

/-- The mutable per-session fields of the `ChatCompletion` class. -/
structure Session where
  newMessage : String
  newToolCall : AccumulatedToolCall
  toolCallResult : Option Json
  toolRenderResult : Option ReactElement
  finished : Bool

/-- The field values a fresh `ChatCompletion` starts with. -/
def Session.init : Session :=
  { newMessage := ""
    newToolCall := { name := "", arguments := "" }
    toolCallResult := none
    toolRenderResult := none
    finished := false }

/-- `getMessages`: the best-effort result message list assembled from the
current session fields. -/
def getMessages (s : Session) : List Msg :=
  (if s.newMessage ≠ "" then [Msg.assistant s.newMessage] else []) ++
  (match s.toolRenderResult with
   | some e => [Msg.element e]
   | none => []) ++
  (match s.toolCallResult with
   | some d => [Msg.function s.newToolCall.name (Json.stringify d)]
   | none => [])

/-- One observable step of the notification bus, plus internal markers for
transport closing, the `finished` flag write (tagged with the recursion
depth of the session that wrote it), and an exception escaping the handler. -/
inductive TraceEvent where
  | chunk (messages : List Msg) : TraceEvent
  | done (messages : List Msg) : TraceEvent
  | error (message : String) : TraceEvent
  | setFinished (depth : Nat) : TraceEvent
  | closeTransport : TraceEvent
  | thrown : TraceEvent
  deriving DecidableEq, Repr

/-- Result of running `handleNewChunk` on one frame: the updated session, the
callback invocations it performed in order, and flags for the control effects
(`eventSource.close()`, an uncaught `JSON.parse` exception, and the launch of
the asynchronous `handleToolCall`). -/
structure HandleOutcome where
  session : Session
  events : List TraceEvent
  closed : Bool
  threw : Bool
  toolCallTriggered : Bool

/-- An outcome that leaves everything unchanged and performs nothing. -/
def noopOutcome (s : Session) : HandleOutcome :=
  { session := s, events := [], closed := false, threw := false
    toolCallTriggered := false }

/-- `handleNewChunk`, the `message` listener.  `parse` models
`JSON.parse(event.data) as ChatCompletionChunk` (returning `none` when the
source's unguarded parse would throw a `SyntaxError`); `data` is
`event.data`, `none` when the payload is absent.  The branches follow the
source in order: the `[DONE]` sentinel closes the transport; an empty or
absent payload reports an error; an unparsable payload lets the exception
escape; `choices` null or empty is silently ignored; then finish reason
`tool_calls`, finish reason `stop`, a text delta, a tool-call delta, and
finally the unknown-message error. -/
def handleNewChunk (parse : String → Option ChatCompletionChunk)
    (s : Session) (data : Option String) : HandleOutcome :=
  if data = some "[DONE]" then
    { session := s, events := [], closed := true, threw := false
      toolCallTriggered := false }
  else
    match data with
    | none =>
        { session := s, events := [TraceEvent.error "Empty message received."]
          closed := false, threw := false, toolCallTriggered := false }
    | some d =>
      if d = "" then
        { session := s, events := [TraceEvent.error "Empty message received."]
          closed := false, threw := false, toolCallTriggered := false }
      else
        match parse d with
        | none =>
            { session := s, events := [], closed := false, threw := true
              toolCallTriggered := false }
        | some e =>
          match e.choices with
          | none => noopOutcome s
          | some [] => noopOutcome s
          | some (firstChoice :: _) =>
            if firstChoice.finish_reason = some "tool_calls" then
              { session := s, events := [], closed := false, threw := false
                toolCallTriggered := true }
            else if firstChoice.finish_reason = some "stop" then
              { session := { s with finished := true }
                events := [TraceEvent.done [Msg.assistant s.newMessage]]
                closed := false, threw := false, toolCallTriggered := false }
            else
              match firstChoice.delta.content with
              | some content =>
                  let s' := { s with newMessage := s.newMessage ++ content }
                  { session := s', events := [TraceEvent.chunk (getMessages s')]
                    closed := false, threw := false, toolCallTriggered := false }
              | none =>
                match firstChoice.delta.tool_calls with
                | some (firstToolCall :: _) =>
                    let name1 :=
                      match firstToolCall.function with
                      | some f =>
                          match f.name with
                          | some n =>
                              if n = "" then s.newToolCall.name
                              else s.newToolCall.name ++ n
                          | none => s.newToolCall.name
                      | none => s.newToolCall.name
                    let args1 :=
                      match firstToolCall.function with
                      | some f =>
                          match f.arguments with
                          | some a =>
                              if a = "" then s.newToolCall.arguments
                              else s.newToolCall.arguments ++ a
                          | none => s.newToolCall.arguments
                      | none => s.newToolCall.arguments
                    { session :=
                        { s with newToolCall := { name := name1, arguments := args1 } }
                      events := [], closed := false, threw := false
                      toolCallTriggered := false }
                | _ =>
                    { session := s
                      events := [TraceEvent.error "Unknown message received."]
                      closed := false, threw := false, toolCallTriggered := false }

/-- A runtime value pulled from a tool's render generator.  The source
discriminates values by shape: an object carrying both a `data` and a
`component` key is terminal; otherwise a value passing `React.isValidElement`
is an intermediate display unit; anything else (including `undefined`) is
ignored. -/
inductive GenValue where
  | elem (e : ReactElement) : GenValue
  | pair (component : ReactElement) (data : Json) : GenValue
  | other : GenValue

/-- The display unit a pulled value carries, if any. -/
def GenValue.display : GenValue → Option ReactElement
  | .elem e => some e
  | .pair c _ => some c
  | .other => none

/-- The structured data a pulled value carries, if any. -/
def GenValue.dataPart : GenValue → Option Json
  | .pair _ d => some d
  | _ => none

/-- One complete run of a tool's render generator: the values it yields and
the value it finally returns.  The driver pulls `yields` one at a time and
then the `ret` value (which `generator.next()` hands back with
`done: true`). -/
structure GeneratorRun where
  yields : List GenValue
  ret : GenValue

/-- A declared tool: `parameters.parse` modelled as a boolean validator over
the parsed argument value (zod is an external library), and `render`
modelled as the full run its generator would produce for given arguments. -/
structure ToolDef where
  validate : Json → Bool
  render : Json → GeneratorRun

/-- Association-list lookup modelling `this.params.tools[name]`. -/
def lookupTool (tools : List (String × ToolDef)) (n : String) : Option ToolDef :=
  (tools.find? (fun t => t.1 = n)).map Prod.snd

/-- The state update one pulled generator value causes (the body of the
`while` loop in `handleToolCall` before the chunk notification). -/
def applyGenValue (s : Session) : GenValue → Session
  | .pair c d => { s with toolRenderResult := some c, toolCallResult := some d }
  | .elem e => { s with toolRenderResult := some e }
  | .other => s

/-- The driver's pull loop over the listed generator values: after each
pulled value the session is updated and a chunk notification carrying the
then-current `getMessages` fires. -/
def runGenerator (s : Session) : List GenValue → Session × List TraceEvent
  | [] => (s, [])
  | v :: vs =>
      let s' := applyGenValue s v
      let r := runGenerator s' vs
      (r.1, TraceEvent.chunk (getMessages s') :: r.2)

/-- Result of `handleToolCall` up to (but not including) the recursive
continuation: either an early `return` after reporting a validation error,
an uncaught exception from the unguarded `JSON.parse` of the argument
string, or a completed pull loop ready for `streamRecursiveAfterToolCall`. -/
inductive ToolCallStep where
  | errored (session : Session) (events : List TraceEvent) : ToolCallStep
  | raised (session : Session) : ToolCallStep
  | ran (session : Session) (events : List TraceEvent) : ToolCallStep

/-- The session an aborted or completed tool-call step leaves behind. -/
def ToolCallStep.session : ToolCallStep → Session
  | .errored s _ => s
  | .raised s => s
  | .ran s _ => s

/-- The callback invocations a tool-call step performed. -/
def ToolCallStep.events : ToolCallStep → List TraceEvent
  | .errored _ evs => evs
  | .raised _ => []
  | .ran _ evs => evs

/-- Whether the step reached `chosenTool.render(args)`: only a completed pull
loop did; every earlier exit happens before the render capability is
invoked. -/
def ToolCallStep.renderInvoked : ToolCallStep → Bool
  | .ran _ _ => true
  | _ => false

/-- `handleToolCall` up to the recursion point, following the source order:
empty-name check, declared-tool check (`Object.keys(...).includes` and the
null check on the lookup), the unguarded `JSON.parse` of the accumulated
arguments (`jsonParse` returning `none` models a thrown `SyntaxError`, which
nothing catches), the zod validation wrapped in try/catch, and finally the
generator pull loop. -/
def handleToolCallCore (jsonParse : String → Option Json)
    (tools : Option (List (String × ToolDef))) (s : Session) : ToolCallStep :=
  if s.newToolCall.name = "" then
    .errored s [TraceEvent.error "Tool call received without a name."]
  else
    match tools with
    | none => .errored s [TraceEvent.error "Tool call received for unknown tool."]
    | some ts =>
      if !(ts.map Prod.fst).contains s.newToolCall.name then
        .errored s [TraceEvent.error "Tool call received for unknown tool."]
      else
        match lookupTool ts s.newToolCall.name with
        | none =>
            .errored s [TraceEvent.error "Tool call received for unknown tool."]
        | some chosenTool =>
          match jsonParse s.newToolCall.arguments with
          | none => .raised s
          | some args =>
            if !chosenTool.validate args then
              .errored s [TraceEvent.error "Invalid arguments received."]
            else
              let gen := chosenTool.render args
              let r := runGenerator s (gen.yields ++ [gen.ret])
              .ran r.1 r.2

/-- The wrapped callbacks `streamRecursiveAfterToolCall` installs on the
child completion: chunk and done payloads are prefixed with the parent's
current `getMessages`; the error callback (and the internal markers) pass
through unchanged. -/
def wrapChildEvent (parentMessages : List Msg) : TraceEvent → TraceEvent
  | .chunk ms => .chunk (parentMessages ++ ms)
  | .done ms => .done (parentMessages ++ ms)
  | e => e

/-- The trace one frame contributes when processed at recursion depth `d`:
its callback invocations, then a marker if it set the `finished` flag, then
markers for an escaped exception or the transport close. -/
def frameTrace (d : Nat) (s : Session) (o : HandleOutcome) : List TraceEvent :=
  o.events ++
  (if o.session.finished && !s.finished then [TraceEvent.setFinished d] else []) ++
  (if o.threw then [TraceEvent.thrown] else []) ++
  (if o.closed then [TraceEvent.closeTransport] else [])

/-- Result of feeding a list of frames to one session. -/
structure FramesResult where
  session : Session
  trace : List TraceEvent
  closed : Bool
  triggers : Nat

/-- Feed the frames of one transport stream to `handleNewChunk` in order,
collecting the trace.  Processing stops once the transport is closed (the
`[DONE]` sentinel); `triggers` counts the frames whose finish reason launched
`handleToolCall`. -/
def runFrames (parse : String → Option ChatCompletionChunk) (d : Nat)
    (s : Session) : List (Option String) → FramesResult
  | [] => { session := s, trace := [], closed := false, triggers := 0 }
  | f :: fs =>
      let o := handleNewChunk parse s f
      if o.closed then
        { session := o.session, trace := frameTrace d s o, closed := true
          triggers := 0 }
      else
        let r := runFrames parse d o.session fs
        { session := r.session, trace := frameTrace d s o ++ r.trace
          closed := r.closed
          triggers := (if o.toolCallTriggered then 1 else 0) + r.triggers }

/-- The frames the transport will deliver to a session, together with the
frames its recursive child session (spawned on a tool call) would receive in
turn.  `leaf` stands for a continuation that receives no frames at all. -/
inductive FrameScript where
  | leaf : FrameScript
  | node (frames : List (Option String)) (child : FrameScript) : FrameScript

/-- Result of a complete session run: final state of this session, the merged
trace delivered to the caller, and whether the run is stuck in the
fixed-delay poll waiting on a child that never finishes. -/
structure TurnResult where
  session : Session
  trace : List TraceEvent
  hung : Bool

/-- A complete run of one `ChatCompletion` at recursion depth `d`: process
the frames; if a frame launched `handleToolCall`, run the validation and the
pull loop, then `streamRecursiveAfterToolCall`: build the child request by
appending the non-element part of `getMessages` to the parent's messages,
run the child on its own frames with wrapped callbacks, and poll until the
child's `finished` flag is set, after which this session sets its own flag.
A child that never finishes leaves the parent polling forever (`hung`).
Frames arriving after the finish frame are processed before the awaited tool
call resumes, so the model runs the tool call after the frame list; streams
with more than one tool-call finish frame interleave their (un-awaited)
handlers and are outside this model. -/
def runSession (parse : String → Option ChatCompletionChunk)
    (jsonParse : String → Option Json)
    (tools : Option (List (String × ToolDef)))
    (messages : List Msg) (d : Nat) : FrameScript → TurnResult
  | .leaf => { session := Session.init, trace := [], hung := false }
  | .node frames child =>
      let fr := runFrames parse d Session.init frames
      if fr.triggers = 0 then
        { session := fr.session, trace := fr.trace, hung := false }
      else
        match handleToolCallCore jsonParse tools fr.session with
        | .errored s evs =>
            { session := s, trace := fr.trace ++ evs, hung := false }
        | .raised s =>
            { session := s, trace := fr.trace ++ [TraceEvent.thrown], hung := false }
        | .ran s' evs =>
            let childMessages :=
              messages ++ filterOutReactComponents (getMessages s')
            let c := runSession parse jsonParse tools childMessages (d + 1) child
            let wrapped := c.trace.map (wrapChildEvent (getMessages s'))
            if c.session.finished then
              { session := { s' with finished := true }
                trace := fr.trace ++ evs ++ wrapped ++ [TraceEvent.setFinished d]
                hung := c.hung }
            else
              { session := s', trace := fr.trace ++ evs ++ wrapped, hung := true }

/-! ### Helper definitions and lemmas about single frames -/

/-- The string a truthy optional fragment contributes: the fragment when
present, the empty string otherwise. -/
def fragOrEmpty (o : Option String) : String := o.getD ""

/-- The name fragment the first tool-call entry of a frame carries. -/
def nameFrag (tc : ToolCallDelta) : String :=
  match tc.function with
  | some f => fragOrEmpty f.name
  | none => ""

/-- The arguments fragment the first tool-call entry of a frame carries. -/
def argFrag (tc : ToolCallDelta) : String :=
  match tc.function with
  | some f => fragOrEmpty f.arguments
  | none => ""

/-- A payload/content pair describing a frame whose first choice carries a
non-null text delta (and no finish reason that would preempt it). -/
def FrameIsTextDelta (parse : String → Option ChatCompletionChunk)
    (pd : String × String) : Prop :=
  pd.1 ≠ "[DONE]" ∧ pd.1 ≠ "" ∧
  ∃ e c rest, parse pd.1 = some e ∧ e.choices = some (c :: rest) ∧
    c.finish_reason ≠ some "tool_calls" ∧ c.finish_reason ≠ some "stop" ∧
    c.delta.content = some pd.2

/-- A payload/entry pair describing a frame whose first choice carries
tool-call delta entries headed by the given entry (and a null text delta). -/
def FrameIsToolCallDelta (parse : String → Option ChatCompletionChunk)
    (pd : String × ToolCallDelta) : Prop :=
  pd.1 ≠ "[DONE]" ∧ pd.1 ≠ "" ∧
  ∃ e c rest more, parse pd.1 = some e ∧ e.choices = some (c :: rest) ∧
    c.finish_reason ≠ some "tool_calls" ∧ c.finish_reason ≠ some "stop" ∧
    c.delta.content = none ∧ c.delta.tool_calls = some (pd.2 :: more)

/-! ### Concrete instances used by witnesses -/

/-- A frame envelope carrying one text delta. -/
def textChunk (t : String) : ChatCompletionChunk :=
  { choices := some [{ finish_reason := none
                       delta := { content := some t, tool_calls := none } }] }

/-- A frame envelope carrying one tool-call delta entry. -/
def toolChunk (tc : ToolCallDelta) : ChatCompletionChunk :=
  { choices := some [{ finish_reason := none
                       delta := { content := none, tool_calls := some [tc] } }] }

/-- A frame envelope carrying a finish reason and nothing else. -/
def finishChunk (r : String) : ChatCompletionChunk :=
  { choices := some [{ finish_reason := some r
                       delta := { content := none, tool_calls := none } }] }

/-- Concrete frame decoder for the text-delta witness: two payloads carrying
the deltas of the word Hello. -/
def c6parse (d : String) : Option ChatCompletionChunk :=
  if d = "a" then some (textChunk "He")
  else if d = "b" then some (textChunk "llo")
  else none

/-- First tool-call delta entry of the C5 witness: fragments of both the
name and the arguments in one frame. -/
def c5tc1 : ToolCallDelta :=
  { function := some { name := some "getW", arguments := some "\x7b" } }

/-- Second tool-call delta entry of the C5 witness. -/
def c5tc2 : ToolCallDelta :=
  { function := some { name := some "eather", arguments := some "\x7d" } }

/-- Concrete frame decoder for the tool-call-delta witness. -/
def c5parse (d : String) : Option ChatCompletionChunk :=
  if d = "p" then some (toolChunk c5tc1)
  else if d = "q" then some (toolChunk c5tc2)
  else none

/-- Whether a trace event is an `onDone` invocation. -/
def TraceEvent.isDone : TraceEvent → Bool
  | .done _ => true
  | _ => false

/-- Whether a trace event is an `onError` invocation. -/
def TraceEvent.isError : TraceEvent → Bool
  | .error _ => true
  | _ => false

/-- Whether a trace event is a `finished`-flag write marker. -/
def TraceEvent.isSetFinished : TraceEvent → Bool
  | .setFinished _ => true
  | _ => false

/-- A tool whose validation always succeeds and whose generator immediately
returns an unrecognized value (used by the C1 counterexample, where the
generator is never reached). -/
def c1Tool : ToolDef :=
  { validate := fun _ => true, render := fun _ => { yields := [], ret := .other } }

/-- Registry declaring `toolA` for the C1 counterexample. -/
def c1Tools : List (String × ToolDef) := [("toolA", c1Tool)]

/-- Session state at the C1 counterexample: a finished tool call naming the
declared tool `toolA` whose accumulated arguments are not valid JSON. -/
def c1Session : Session :=
  { Session.init with newToolCall := { name := "toolA", arguments := "notjson" } }

/-- A tool whose schema validation rejects every argument value (C7
witness). -/
def c7Tool : ToolDef :=
  { validate := fun _ => false, render := fun _ => { yields := [], ret := .other } }

/-- Registry declaring `toolB` for the C7 witness. -/
def c7Tools : List (String × ToolDef) := [("toolB", c7Tool)]

/-- Session state for the C7 witness: a tool call naming `toolB` with
arguments that parse as the JSON number 42. -/
def c7Session : Session :=
  { Session.init with newToolCall := { name := "toolB", arguments := "42" } }

/-- Argument parser for the C7 witness. -/
def c7jsonParse (a : String) : Option Json :=
  if a = "42" then some (Json.num 42) else none

/-- The terminal display unit of the C4 instance. -/
def c4D0 : ReactElement := { key := 0 }

/-- The intermediate display unit of the C4 instance. -/
def c4D1 : ReactElement := { key := 1 }

/-- The structured data of the C4 instance's terminal artifact. -/
def c4data : Json := Json.obj [("x", Json.num 1)]

/-- Session state at the start of the C4 instance's pull loop. -/
def c4Session : Session :=
  { Session.init with newToolCall := { name := "myTool", arguments := "\x7b\x7d" } }

/-- The tool-call delta entry of the C3 scenario: full name and arguments in
one frame. -/
def c3tc : ToolCallDelta :=
  { function := some { name := some "t", arguments := some "\x7b\x7d" } }

/-- Frame decoder of the C3 scenario: the parent stream sends one tool-call
delta and a `tool_calls` finish; the child stream sends one text delta and a
`stop` finish. -/
def c3parse (d : String) : Option ChatCompletionChunk :=
  if d = "pf1" then some (toolChunk c3tc)
  else if d = "pf2" then some (finishChunk "tool_calls")
  else if d = "cf1" then some (textChunk "Hi")
  else if d = "cf2" then some (finishChunk "stop")
  else none

/-- Argument parser of the C3 scenario: the accumulated two-brace string
parses to the empty JSON object. -/
def c3jsonParse (a : String) : Option Json :=
  if a = "\x7b\x7d" then some (Json.obj []) else none

/-- The tool of the C3 scenario: validation succeeds and the generator
immediately returns a terminal artifact. -/
def c3Tool : ToolDef :=
  { validate := fun _ => true
    render := fun _ =>
      { yields := [], ret := .pair { key := 5 } (Json.obj [("x", Json.num 1)]) } }

/-- Registry of the C3 scenario. -/
def c3Tools : Option (List (String × ToolDef)) := some [("t", c3Tool)]

/-- Frames of the C3 scenario: the parent's two frames, then the child's
two frames for the recursive continuation. -/
def c3Script : FrameScript :=
  .node [some "pf1", some "pf2"] (.node [some "cf1", some "cf2"] .leaf)

/-- Parent session state after the C3 scenario's parent frames. -/
def c3s1 : Session :=
  { Session.init with newToolCall := { name := "t", arguments := "\x7b\x7d" } }

/-- Parent session state after the C3 scenario's pull loop. -/
def c3s2 : Session :=
  { c3s1 with toolRenderResult := some { key := 5 }
              toolCallResult := some (Json.obj [("x", Json.num 1)]) }

/-- The source's truthiness-guarded append equals plain concatenation with
the (possibly empty) fragment. -/
lemma truthy_append (base : String) (o : Option String) :
    (match o with
     | some n => if n = "" then base else base ++ n
     | none => base) = base ++ fragOrEmpty o := by
  cases o with
  | none => simp [fragOrEmpty, String.append_empty]
  | some n =>
      by_cases hn : n = "" <;> simp [fragOrEmpty, hn, String.append_empty]

/-- Effect of one text-delta frame: the content is appended to the
accumulated text and one chunk notification fires. -/
lemma handleNewChunk_text_delta (parse : String → Option ChatCompletionChunk)
    (s : Session) (d t : String) (e : ChatCompletionChunk) (c : Choice)
    (rest : List Choice)
    (hterm : d ≠ "[DONE]") (hne : d ≠ "")
    (hp : parse d = some e) (hc : e.choices = some (c :: rest))
    (hfr1 : c.finish_reason ≠ some "tool_calls")
    (hfr2 : c.finish_reason ≠ some "stop")
    (hcontent : c.delta.content = some t) :
    handleNewChunk parse s (some d) =
      { session := { s with newMessage := s.newMessage ++ t }
        events :=
          [TraceEvent.chunk (getMessages { s with newMessage := s.newMessage ++ t })]
        closed := false, threw := false, toolCallTriggered := false } := by
  simp [handleNewChunk, hterm, hne, hp, hc, hfr1, hfr2, hcontent]

/-- Effect of one tool-call-delta frame: the name and argument fragments of
the first entry are appended to the accumulated tool call; no callback
fires. -/
lemma handleNewChunk_toolcall_delta (parse : String → Option ChatCompletionChunk)
    (s : Session) (d : String) (tc : ToolCallDelta) (e : ChatCompletionChunk)
    (c : Choice) (rest : List Choice) (more : List ToolCallDelta)
    (hterm : d ≠ "[DONE]") (hne : d ≠ "")
    (hp : parse d = some e) (hc : e.choices = some (c :: rest))
    (hfr1 : c.finish_reason ≠ some "tool_calls")
    (hfr2 : c.finish_reason ≠ some "stop")
    (hcontent : c.delta.content = none)
    (htc : c.delta.tool_calls = some (tc :: more)) :
    handleNewChunk parse s (some d) =
      { session :=
          { s with newToolCall :=
              { name := s.newToolCall.name ++ nameFrag tc
                arguments := s.newToolCall.arguments ++ argFrag tc } }
        events := [], closed := false, threw := false
        toolCallTriggered := false } := by
  cases tc with
  | mk fo =>
    cases fo with
    | none =>
        simp [handleNewChunk, hterm, hne, hp, hc, hfr1, hfr2, hcontent, htc,
          nameFrag, argFrag, String.append_empty]
    | some f =>
      cases f with
      | mk nm ar =>
        cases nm with
        | none =>
            cases ar with
            | none =>
                simp [handleNewChunk, hterm, hne, hp, hc, hfr1, hfr2, hcontent,
                  htc, nameFrag, argFrag, fragOrEmpty, String.append_empty]
            | some a =>
                by_cases ha : a = "" <;>
                  simp [handleNewChunk, hterm, hne, hp, hc, hfr1, hfr2, hcontent,
                    htc, nameFrag, argFrag, fragOrEmpty, ha, String.append_empty]
        | some n =>
            cases ar with
            | none =>
                by_cases hn : n = "" <;>
                  simp [handleNewChunk, hterm, hne, hp, hc, hfr1, hfr2, hcontent,
                    htc, nameFrag, argFrag, fragOrEmpty, hn, String.append_empty]
            | some a =>
                by_cases hn : n = "" <;> by_cases ha : a = "" <;>
                  simp [handleNewChunk, hterm, hne, hp, hc, hfr1, hfr2, hcontent,
                    htc, nameFrag, argFrag, fragOrEmpty, hn, ha, String.append_empty]

/-! ### Claim theorems: single-frame behaviour -/

/-- Claim C8: a frame whose payload is the terminator sentinel `[DONE]`
closes the transport and, by itself, fires no `onDone` and no `onError`
(indeed no callback at all), leaving every accumulation field and the
`finished` flag unchanged. -/
theorem terminator_frame_closes_transport_silently
    (parse : String → Option ChatCompletionChunk) (s : Session) :
    handleNewChunk parse s (some "[DONE]") =
      { session := s, events := [], closed := true, threw := false
        toolCallTriggered := false } := rfl

/-- Claim C9: a frame whose payload is empty or absent produces exactly one
`onError` invocation with the message `Empty message received.`, and no
`onChunkReceived` or `onDone` invocation. -/
theorem empty_frame_reports_exactly_one_error
    (parse : String → Option ChatCompletionChunk) (s : Session)
    (data : Option String) (h : data = none ∨ data = some "") :
    handleNewChunk parse s data =
      { session := s, events := [TraceEvent.error "Empty message received."]
        closed := false, threw := false, toolCallTriggered := false } := by
  rcases h with h | h <;> subst h <;> rfl

/-- Witness for C9 at a concrete absent payload. -/
theorem empty_frame_reports_exactly_one_error_witness :
    handleNewChunk (fun _ => none) Session.init none =
      { session := Session.init
        events := [TraceEvent.error "Empty message received."]
        closed := false, threw := false, toolCallTriggered := false } :=
  empty_frame_reports_exactly_one_error (fun _ => none) Session.init none (Or.inl rfl)

/-- Claim C2: a frame whose payload fails to parse as the chunk envelope, or
parses to an envelope whose `choices` is absent or empty, fires no callback
(`onError`, `onChunkReceived` or `onDone`) and leaves the session — the
accumulated text, the accumulated tool call and the `finished` flag —
unchanged.  (In the unparsable case the source's unguarded `JSON.parse`
additionally lets a `SyntaxError` escape the listener, which the `threw`
flag records; no callback observes it.) -/
theorem unparsable_or_choiceless_frame_is_noop
    (parse : String → Option ChatCompletionChunk) (s : Session) (d : String)
    (hterm : d ≠ "[DONE]") (hne : d ≠ "")
    (h : parse d = none ∨
      ∃ e, parse d = some e ∧ (e.choices = none ∨ e.choices = some [])) :
    (handleNewChunk parse s (some d)).events = [] ∧
    (handleNewChunk parse s (some d)).session = s := by
  rcases h with h | ⟨e, he, hc⟩
  · simp [handleNewChunk, hterm, hne, h]
  · rcases hc with hc | hc <;>
      simp [handleNewChunk, hterm, hne, he, hc, noopOutcome]

/-- Witness for C2 at a concrete unparsable payload. -/
theorem unparsable_or_choiceless_frame_is_noop_witness :
    (handleNewChunk (fun _ => none) Session.init (some "x")).events = [] ∧
    (handleNewChunk (fun _ => none) Session.init (some "x")).session = Session.init :=
  unparsable_or_choiceless_frame_is_noop (fun _ => none) Session.init "x"
    (by decide) (by decide) (Or.inl rfl)

/-- Claim C10: a frame whose first choice has finish reason `stop` invokes
`onDone` with exactly the one-element list containing an assistant message
whose content is the accumulated text at that moment (even when that text is
empty), never including the tool display unit or a synthesized function-role
message regardless of the session's tool-call state, and sets the `finished`
flag immediately after. -/
theorem finish_stop_onDone_exact_singleton
    (parse : String → Option ChatCompletionChunk) (s : Session) (d : String)
    (e : ChatCompletionChunk) (c : Choice) (rest : List Choice)
    (hterm : d ≠ "[DONE]") (hne : d ≠ "")
    (hp : parse d = some e) (hc : e.choices = some (c :: rest))
    (hf : c.finish_reason = some "stop") :
    handleNewChunk parse s (some d) =
      { session := { s with finished := true }
        events := [TraceEvent.done [Msg.assistant s.newMessage]]
        closed := false, threw := false, toolCallTriggered := false } := by
  simp [handleNewChunk, hterm, hne, hp, hc, hf]

/-- Witness for C10 at a concrete stop frame, on a session with empty
accumulated text and tool-call state present: the payload is still exactly
the assistant singleton with empty content. -/
theorem finish_stop_onDone_exact_singleton_witness :
    handleNewChunk
      (fun _ => some { choices := some [{ finish_reason := some "stop"
                                          delta := { content := none, tool_calls := none } }] })
      { Session.init with toolRenderResult := some { key := 7 } } (some "f") =
      { session := { Session.init with toolRenderResult := some { key := 7 }, finished := true }
        events := [TraceEvent.done [Msg.assistant ""]]
        closed := false, threw := false, toolCallTriggered := false } :=
  finish_stop_onDone_exact_singleton _ _ "f" _ _ _
    (by decide) (by decide) rfl rfl rfl

/-- Claim C6: over any sequence of frames each carrying a non-null text
delta, the final accumulated assistant text is the initial text followed by
the concatenation of the delta strings in arrival order (the left fold of
append), and each such frame fires exactly one notification, every one of
them a chunk notification. -/
theorem text_delta_concatenation
    (parse : String → Option ChatCompletionChunk) (dep : Nat) (s : Session)
    (l : List (String × String)) (h : ∀ pd ∈ l, FrameIsTextDelta parse pd) :
    (runFrames parse dep s (l.map (fun pd => some pd.1))).session.newMessage
        = l.foldl (fun acc pd => acc ++ pd.2) s.newMessage ∧
    (runFrames parse dep s (l.map (fun pd => some pd.1))).trace.length = l.length ∧
    ∀ ev ∈ (runFrames parse dep s (l.map (fun pd => some pd.1))).trace,
      ∃ ms, ev = TraceEvent.chunk ms := by
  induction l generalizing s with
  | nil => simp [runFrames]
  | cons pd rest ih =>
    obtain ⟨hterm, hne, e, c, cs, hp, hc, hfr1, hfr2, hcontent⟩ :=
      h pd (List.mem_cons_self _ _)
    have hstep := handleNewChunk_text_delta parse s pd.1 pd.2 e c cs hterm hne
      hp hc hfr1 hfr2 hcontent
    obtain ⟨ih1, ih2, ih3⟩ := ih { s with newMessage := s.newMessage ++ pd.2 }
      (fun q hq => h q (List.mem_cons_of_mem _ hq))
    simp [runFrames, hstep, frameTrace, ih1, ih2]
    exact ih3

/-- Witness for C6: two frames deliver the deltas of the word Hello. -/
theorem text_delta_concatenation_witness :
    (runFrames c6parse 0 Session.init
        ([("a", "He"), ("b", "llo")].map (fun pd => some pd.1))).session.newMessage
        = [("a", "He"), ("b", "llo")].foldl
            (fun acc pd => acc ++ pd.2) Session.init.newMessage ∧
    (runFrames c6parse 0 Session.init
        ([("a", "He"), ("b", "llo")].map (fun pd => some pd.1))).trace.length
        = [("a", "He"), ("b", "llo")].length ∧
    ∀ ev ∈ (runFrames c6parse 0 Session.init
        ([("a", "He"), ("b", "llo")].map (fun pd => some pd.1))).trace,
      ∃ ms, ev = TraceEvent.chunk ms := by
  refine text_delta_concatenation c6parse 0 Session.init
    [("a", "He"), ("b", "llo")] ?_
  intro pd hpd
  rcases hpd with _ | ⟨_, (_ | ⟨_, h⟩)⟩
  · exact ⟨by decide, by decide, textChunk "He", _, _, rfl, rfl, by decide,
      by decide, rfl⟩
  · exact ⟨by decide, by decide, textChunk "llo", _, _, rfl, rfl, by decide,
      by decide, rfl⟩
  · cases h

/-- Claim C5: over any sequence of frames each carrying tool-call delta
entries, the final accumulated tool name is the initial name followed by the
concatenation, in arrival order, of the name fragments of each frame's first
entry, and likewise for the arguments string; entries beyond the first of a
frame are ignored, one frame may contribute to both fields, and no callback
fires. -/
theorem toolcall_delta_concatenation
    (parse : String → Option ChatCompletionChunk) (dep : Nat) (s : Session)
    (l : List (String × ToolCallDelta))
    (h : ∀ pd ∈ l, FrameIsToolCallDelta parse pd) :
    (runFrames parse dep s (l.map (fun pd => some pd.1))).session.newToolCall.name
        = l.foldl (fun acc pd => acc ++ nameFrag pd.2) s.newToolCall.name ∧
    (runFrames parse dep s (l.map (fun pd => some pd.1))).session.newToolCall.arguments
        = l.foldl (fun acc pd => acc ++ argFrag pd.2) s.newToolCall.arguments ∧
    (runFrames parse dep s (l.map (fun pd => some pd.1))).trace = [] := by
  induction l generalizing s with
  | nil => simp [runFrames]
  | cons pd rest ih =>
    obtain ⟨hterm, hne, e, c, cs, more, hp, hc, hfr1, hfr2, hcontent, htc⟩ :=
      h pd (List.mem_cons_self _ _)
    have hstep := handleNewChunk_toolcall_delta parse s pd.1 pd.2 e c cs more
      hterm hne hp hc hfr1 hfr2 hcontent htc
    obtain ⟨ih1, ih2, ih3⟩ := ih
      { s with newToolCall :=
          { name := s.newToolCall.name ++ nameFrag pd.2
            arguments := s.newToolCall.arguments ++ argFrag pd.2 } }
      (fun q hq => h q (List.mem_cons_of_mem _ hq))
    simp [runFrames, hstep, frameTrace, ih1, ih2, ih3]

/-- Witness for C5: two frames split the name getWeather and the two-brace
argument string across the stream, each contributing both fields. -/
theorem toolcall_delta_concatenation_witness :
    (runFrames c5parse 0 Session.init
        ([("p", c5tc1), ("q", c5tc2)].map (fun pd => some pd.1))).session.newToolCall.name
        = [("p", c5tc1), ("q", c5tc2)].foldl
            (fun acc pd => acc ++ nameFrag pd.2) Session.init.newToolCall.name ∧
    (runFrames c5parse 0 Session.init
        ([("p", c5tc1), ("q", c5tc2)].map (fun pd => some pd.1))).session.newToolCall.arguments
        = [("p", c5tc1), ("q", c5tc2)].foldl
            (fun acc pd => acc ++ argFrag pd.2) Session.init.newToolCall.arguments ∧
    (runFrames c5parse 0 Session.init
        ([("p", c5tc1), ("q", c5tc2)].map (fun pd => some pd.1))).trace = [] := by
  refine toolcall_delta_concatenation c5parse 0 Session.init
    [("p", c5tc1), ("q", c5tc2)] ?_
  intro pd hpd
  rcases hpd with _ | ⟨_, (_ | ⟨_, h⟩)⟩
  · exact ⟨by decide, by decide, toolChunk c5tc1, _, _, _, rfl, rfl, by decide,
      by decide, rfl, rfl⟩
  · exact ⟨by decide, by decide, toolChunk c5tc2, _, _, _, rfl, rfl, by decide,
      by decide, rfl, rfl⟩
  · cases h

/-! ### Helper lemmas about the tool registry and the pull loop -/

/-- A successful `Object.keys(tools).includes(name)` check means some entry
of the registry carries that name. -/
lemma exists_pair_mem_of_contains (ts : List (String × ToolDef)) (n : String)
    (h : (ts.map Prod.fst).contains n = true) : ∃ x, (n, x) ∈ ts := by
  rw [List.elem_iff] at h
  obtain ⟨⟨a, b⟩, hp, hpe⟩ := List.mem_map.mp h
  simp only [Prod.fst] at hpe
  subst hpe
  exact ⟨b, hp⟩

/-- `Object.keys(tools).includes(name)` guarantees the subsequent indexing
finds a tool. -/
lemma lookupTool_isSome_of_contains (ts : List (String × ToolDef)) (n : String)
    (h : (ts.map Prod.fst).contains n = true) :
    ∃ t, lookupTool ts n = some t := by
  rw [List.elem_iff] at h
  obtain ⟨p, hp, hpeq⟩ := List.mem_map.mp h
  have hfind : (ts.find? (fun t => t.1 = n)).isSome :=
    List.find?_isSome.mpr ⟨p, hp, by simp [hpeq]⟩
  obtain ⟨q, hq⟩ := Option.isSome_iff_exists.mp hfind
  exact ⟨q.2, by simp [lookupTool, hq]⟩

/-- The pull loop fires exactly one notification per pulled value. -/
lemma runGenerator_length (s : Session) (vs : List GenValue) :
    (runGenerator s vs).2.length = vs.length := by
  induction vs generalizing s with
  | nil => simp [runGenerator]
  | cons v vs ih => simp [runGenerator, ih]

/-- Every notification the pull loop fires is a chunk notification. -/
lemma runGenerator_all_chunk (s : Session) (vs : List GenValue) :
    ∀ ev ∈ (runGenerator s vs).2, ∃ ms, ev = TraceEvent.chunk ms := by
  induction vs generalizing s with
  | nil => simp [runGenerator]
  | cons v vs ih =>
    intro ev hev
    simp only [runGenerator, List.mem_cons] at hev
    rcases hev with rfl | hev
    · exact ⟨_, rfl⟩
    · exact ih (applyGenValue s v) ev hev

/-- The display state after the pull loop: the most recently pulled display
unit wins, the initial one surviving only if no pulled value carried one. -/
lemma runGenerator_display (s : Session) (vs : List GenValue) :
    (runGenerator s vs).1.toolRenderResult =
      vs.foldl (fun acc v =>
        match GenValue.display v with
        | some e => some e
        | none => acc) s.toolRenderResult := by
  induction vs generalizing s with
  | nil => simp [runGenerator]
  | cons v vs ih =>
    have step : (applyGenValue s v).toolRenderResult =
        (match GenValue.display v with
         | some e => some e
         | none => s.toolRenderResult) := by
      cases v <;> simp [applyGenValue, GenValue.display]
    simp only [runGenerator, List.foldl_cons]
    rw [ih, step]

/-- The structured data after the pull loop: captured exactly from the most
recently pulled value carrying both a display unit and a data object. -/
lemma runGenerator_data (s : Session) (vs : List GenValue) :
    (runGenerator s vs).1.toolCallResult =
      vs.foldl (fun acc v =>
        match GenValue.dataPart v with
        | some d => some d
        | none => acc) s.toolCallResult := by
  induction vs generalizing s with
  | nil => simp [runGenerator]
  | cons v vs ih =>
    have step : (applyGenValue s v).toolCallResult =
        (match GenValue.dataPart v with
         | some d => some d
         | none => s.toolCallResult) := by
      cases v <;> simp [applyGenValue, GenValue.dataPart]
    simp only [runGenerator, List.foldl_cons]
    rw [ih, step]

/-- The last notification of a nonempty pull loop carries the messages of
the final session state. -/
lemma runGenerator_getLast (s : Session) (vs : List GenValue) :
    (runGenerator s vs).2.getLast? =
      if vs.isEmpty then none
      else some (TraceEvent.chunk (getMessages (runGenerator s vs).1)) := by
  induction vs generalizing s with
  | nil => simp [runGenerator]
  | cons v vs ih =>
    cases vs with
    | nil => simp [runGenerator]
    | cons w ws =>
      have := ih (applyGenValue s v)
      simp only [runGenerator] at this ⊢
      simp only [List.isEmpty_cons] at this ⊢
      simp only [if_neg Bool.false_ne_true] at this
      rw [List.getLast?_cons_cons]
      exact this

/-- A completed tool-call step (`ran`) emitted only chunk notifications:
in particular no `onDone` and no `finished` write. -/
lemma handleToolCallCore_ran_events (jp : String → Option Json)
    (tools : Option (List (String × ToolDef))) (s s' : Session)
    (evs : List TraceEvent)
    (h : handleToolCallCore jp tools s = .ran s' evs) :
    evs.filter TraceEvent.isDone = [] ∧
    evs.filter TraceEvent.isSetFinished = [] := by
  have hall : ∀ ev ∈ evs, ∃ ms, ev = TraceEvent.chunk ms := by
    unfold handleToolCallCore at h
    split at h
    · cases h
    · split at h
      · cases h
      · split at h
        · cases h
        · split at h
          · cases h
          · split at h
            · cases h
            · split at h
              · cases h
              · cases h
                exact runGenerator_all_chunk _ _
  constructor <;>
    · rw [List.filter_eq_nil_iff]
      intro ev hev
      obtain ⟨ms, rfl⟩ := hall ev hev
      simp [TraceEvent.isDone, TraceEvent.isSetFinished]

/-- Wrapping the child's callbacks commutes with selecting its `onDone`
invocations. -/
lemma wrap_filter_done (pm : List Msg) (l : List TraceEvent) :
    (l.map (wrapChildEvent pm)).filter TraceEvent.isDone =
      (l.filter TraceEvent.isDone).map (wrapChildEvent pm) := by
  induction l with
  | nil => rfl
  | cons e l ih =>
    cases e <;> simp [wrapChildEvent, TraceEvent.isDone, ih]

/-- Wrapping the child's callbacks leaves its `finished` markers as they
are. -/
lemma wrap_filter_setFinished (pm : List Msg) (l : List TraceEvent) :
    (l.map (wrapChildEvent pm)).filter TraceEvent.isSetFinished =
      l.filter TraceEvent.isSetFinished := by
  induction l with
  | nil => rfl
  | cons e l ih =>
    cases e <;> simp [wrapChildEvent, TraceEvent.isSetFinished, ih]

/-! ### Claim theorems: the tool-call path -/

/-- Counterexample to claim C1: with the declared tool `toolA` named by the
accumulated call and an argument string no JSON parser accepts, the
tool-call step performs no `onError` invocation at all — the unguarded
`JSON.parse` exception escapes the un-awaited async handler instead
(`raised`), so the failure is not surfaced through the error callback. -/
theorem malformed_arguments_onError_counterexample :
    handleToolCallCore (fun _ => none) (some c1Tools) c1Session = .raised c1Session ∧
    (handleToolCallCore (fun _ => none) (some c1Tools) c1Session).events.filter
      TraceEvent.isError = [] :=
  ⟨rfl, rfl⟩

/-- Amended claim C1: when the accumulated tool name is non-empty and names
a declared tool but the accumulated arguments are not valid JSON, the
tool-call cycle aborts before the tool's render capability is invoked, but
the failure is not surfaced via `onError`: the parse exception propagates
out of the handler uncaught, leaving the session untouched. -/
theorem malformed_arguments_raise_without_render
    (jp : String → Option Json) (ts : List (String × ToolDef)) (s : Session)
    (hname : s.newToolCall.name ≠ "")
    (hdecl : (ts.map Prod.fst).contains s.newToolCall.name = true)
    (hparse : jp s.newToolCall.arguments = none) :
    handleToolCallCore jp (some ts) s = .raised s ∧
    (handleToolCallCore jp (some ts) s).renderInvoked = false := by
  obtain ⟨t, ht⟩ := lookupTool_isSome_of_contains ts s.newToolCall.name hdecl
  have hmem := exists_pair_mem_of_contains ts s.newToolCall.name hdecl
  have heq : handleToolCallCore jp (some ts) s = .raised s := by
    simp [handleToolCallCore, hname, hdecl, hmem, ht, hparse]
  refine ⟨heq, ?_⟩
  rw [heq]
  rfl

/-- Witness for the amended C1 at the concrete counterexample input. -/
theorem malformed_arguments_raise_without_render_witness :
    handleToolCallCore (fun _ => none) (some c1Tools) c1Session = .raised c1Session ∧
    (handleToolCallCore (fun _ => none) (some c1Tools) c1Session).renderInvoked
      = false :=
  malformed_arguments_raise_without_render (fun _ => none) c1Tools c1Session
    (by decide) (by decide) rfl

/-- Claim C7: when a finished tool call names a declared tool whose parsed
arguments fail schema validation, exactly one `onError` fires citing
invalid arguments, the render capability is never invoked, and the
session's `finished` flag remains false. -/
theorem invalid_arguments_single_error_no_render
    (jp : String → Option Json) (ts : List (String × ToolDef)) (s : Session)
    (tool : ToolDef) (args : Json)
    (hname : s.newToolCall.name ≠ "")
    (hdecl : (ts.map Prod.fst).contains s.newToolCall.name = true)
    (hlook : lookupTool ts s.newToolCall.name = some tool)
    (hparse : jp s.newToolCall.arguments = some args)
    (hval : tool.validate args = false)
    (hfin : s.finished = false) :
    handleToolCallCore jp (some ts) s =
      .errored s [TraceEvent.error "Invalid arguments received."] ∧
    (handleToolCallCore jp (some ts) s).renderInvoked = false ∧
    (handleToolCallCore jp (some ts) s).session.finished = false := by
  have hmem := exists_pair_mem_of_contains ts s.newToolCall.name hdecl
  have heq : handleToolCallCore jp (some ts) s =
      .errored s [TraceEvent.error "Invalid arguments received."] := by
    simp [handleToolCallCore, hname, hdecl, hmem, hlook, hparse, hval]
  refine ⟨heq, ?_, ?_⟩
  · rw [heq]
    rfl
  · rw [heq]
    exact hfin

/-- Witness for C7: tool `toolB` rejects the JSON number 42. -/
theorem invalid_arguments_single_error_no_render_witness :
    handleToolCallCore c7jsonParse (some c7Tools) c7Session =
      .errored c7Session [TraceEvent.error "Invalid arguments received."] ∧
    (handleToolCallCore c7jsonParse (some c7Tools) c7Session).renderInvoked
      = false ∧
    (handleToolCallCore c7jsonParse (some c7Tools) c7Session).session.finished
      = false :=
  invalid_arguments_single_error_no_render c7jsonParse c7Tools c7Session
    c7Tool (Json.num 42) (by decide) (by decide) rfl rfl rfl rfl

/-- Claim C4: the driver pulls the generator's values one at a time, firing
one chunk notification per pulled value, keeping the most recently seen
display unit and capturing structured data exactly from values that carry
both a display unit and a data object; the last notification carries the
messages of the final state.  In particular, for a producer yielding one
intermediate element and returning a terminal pair of a display unit and
the data object with field x = 1, at least two chunk notifications fire and
the final payload contains the terminal display unit and a function-role
message whose content is the serialized data. -/
theorem driver_pull_loop_behaviour :
    (∀ (s : Session) (vs : List GenValue),
      (runGenerator s vs).2.length = vs.length ∧
      (∀ ev ∈ (runGenerator s vs).2, ∃ ms, ev = TraceEvent.chunk ms) ∧
      (runGenerator s vs).1.toolRenderResult =
        vs.foldl (fun acc v =>
          match GenValue.display v with
          | some e => some e
          | none => acc) s.toolRenderResult ∧
      (runGenerator s vs).1.toolCallResult =
        vs.foldl (fun acc v =>
          match GenValue.dataPart v with
          | some d => some d
          | none => acc) s.toolCallResult ∧
      (runGenerator s vs).2.getLast? =
        (if vs.isEmpty then none
         else some (TraceEvent.chunk (getMessages (runGenerator s vs).1)))) ∧
    (2 ≤ (runGenerator c4Session [GenValue.elem c4D1, GenValue.pair c4D0 c4data]).2.length ∧
     (runGenerator c4Session [GenValue.elem c4D1, GenValue.pair c4D0 c4data]).2.getLast?
        = some (TraceEvent.chunk (getMessages
            (runGenerator c4Session [GenValue.elem c4D1, GenValue.pair c4D0 c4data]).1)) ∧
     Msg.element c4D0 ∈ getMessages
        (runGenerator c4Session [GenValue.elem c4D1, GenValue.pair c4D0 c4data]).1 ∧
     Msg.function "myTool" "\x7b\"x\":1\x7d" ∈ getMessages
        (runGenerator c4Session [GenValue.elem c4D1, GenValue.pair c4D0 c4data]).1) := by
  constructor
  · intro s vs
    exact ⟨runGenerator_length s vs, runGenerator_all_chunk s vs,
      runGenerator_display s vs, runGenerator_data s vs,
      runGenerator_getLast s vs⟩
  · exact ⟨by decide, rfl, by decide, by decide⟩

/-- Witness for C4: the pull-loop properties evaluated at the concrete
two-value producer of the instance. -/
theorem driver_pull_loop_behaviour_witness :
    (runGenerator c4Session [GenValue.elem c4D1, GenValue.pair c4D0 c4data]).2.length
        = 2 ∧
    Msg.element c4D0 ∈ getMessages
        (runGenerator c4Session [GenValue.elem c4D1, GenValue.pair c4D0 c4data]).1 ∧
    Msg.function "myTool" "\x7b\"x\":1\x7d" ∈ getMessages
        (runGenerator c4Session [GenValue.elem c4D1, GenValue.pair c4D0 c4data]).1 :=
  ⟨(driver_pull_loop_behaviour.1 c4Session
      [GenValue.elem c4D1, GenValue.pair c4D0 c4data]).1,
    driver_pull_loop_behaviour.2.2.2.1, driver_pull_loop_behaviour.2.2.2.2⟩

/-- Claim C3: for a turn whose stream triggers exactly one tool call whose
validation and pull loop complete (`ran`), followed by a recursive
continuation that finishes (its `finished` flag true, emitting exactly one
`onDone`), the caller observes exactly one parent-level `onDone` whose
message list is the parent session's result messages followed, in order, by
the child session's messages; and the parent's `finished` flag is written
only after the child's, as the order of the `setFinished` markers shows. -/
theorem one_tool_call_round_trip
    (parse : String → Option ChatCompletionChunk) (jp : String → Option Json)
    (tools : Option (List (String × ToolDef))) (messages : List Msg)
    (pframes : List (Option String)) (child : FrameScript)
    (s' : Session) (tEvents : List TraceEvent) (cMsgs : List Msg)
    (htr : (runFrames parse 0 Session.init pframes).triggers ≠ 0)
    (hpDone : (runFrames parse 0 Session.init pframes).trace.filter
      TraceEvent.isDone = [])
    (hpFin : (runFrames parse 0 Session.init pframes).trace.filter
      TraceEvent.isSetFinished = [])
    (hcore : handleToolCallCore jp tools
      (runFrames parse 0 Session.init pframes).session = .ran s' tEvents)
    (hcfin : (runSession parse jp tools
      (messages ++ filterOutReactComponents (getMessages s')) 1 child).session.finished
        = true)
    (hcdone : (runSession parse jp tools
      (messages ++ filterOutReactComponents (getMessages s')) 1 child).trace.filter
        TraceEvent.isDone = [TraceEvent.done cMsgs])
    (hcFin : (runSession parse jp tools
      (messages ++ filterOutReactComponents (getMessages s')) 1 child).trace.filter
        TraceEvent.isSetFinished = [TraceEvent.setFinished 1]) :
    (runSession parse jp tools messages 0 (.node pframes child)).trace.filter
        TraceEvent.isDone = [TraceEvent.done (getMessages s' ++ cMsgs)] ∧
    (runSession parse jp tools messages 0 (.node pframes child)).trace.filter
        TraceEvent.isSetFinished
        = [TraceEvent.setFinished 1, TraceEvent.setFinished 0] ∧
    (runSession parse jp tools messages 0 (.node pframes child)).session.finished
        = true := by
  obtain ⟨htd, htf⟩ := handleToolCallCore_ran_events jp tools _ s' tEvents hcore
  have hrun : runSession parse jp tools messages 0 (.node pframes child) =
      { session := { s' with finished := true }
        trace := (runFrames parse 0 Session.init pframes).trace ++ tEvents ++
          ((runSession parse jp tools
            (messages ++ filterOutReactComponents (getMessages s')) 1 child).trace.map
              (wrapChildEvent (getMessages s'))) ++ [TraceEvent.setFinished 0]
        hung := (runSession parse jp tools
          (messages ++ filterOutReactComponents (getMessages s')) 1 child).hung } := by
    simp only [runSession]
    rw [if_neg htr, hcore]
    simp only [Nat.zero_add, Nat.reduceAdd]
    rw [if_pos hcfin]
  rw [hrun]
  refine ⟨?_, ?_, rfl⟩
  · simp only [List.filter_append, hpDone, htd, wrap_filter_done, hcdone]
    simp [wrapChildEvent, TraceEvent.isDone]
  · simp only [List.filter_append, hpFin, htf, wrap_filter_setFinished, hcFin]
    simp [TraceEvent.isSetFinished]


/-- Witness for C3: a two-frame parent stream accumulates the call to tool
t, the tool returns a terminal artifact, and the child stream streams the
text Hi and stops. -/
theorem one_tool_call_round_trip_witness :
    (runSession c3parse c3jsonParse c3Tools [] 0 c3Script).trace.filter
        TraceEvent.isDone
        = [TraceEvent.done (getMessages c3s2 ++ [Msg.assistant "Hi"])] ∧
    (runSession c3parse c3jsonParse c3Tools [] 0 c3Script).trace.filter
        TraceEvent.isSetFinished
        = [TraceEvent.setFinished 1, TraceEvent.setFinished 0] ∧
    (runSession c3parse c3jsonParse c3Tools [] 0 c3Script).session.finished
        = true :=
  one_tool_call_round_trip c3parse c3jsonParse c3Tools []
    [some "pf1", some "pf2"] (.node [some "cf1", some "cf2"] .leaf) c3s2
    [TraceEvent.chunk (getMessages c3s2)] [Msg.assistant "Hi"]
    (by decide) rfl rfl rfl rfl rfl rfl


end RNGenUI
